import Mathlib

/-!
Verification of the webhook ingestion and dispatch path of a minimal
Telegram chatbot (`src/main.py`): startup credential check, the
`send_message` outbound sender with its error handling, and the
`telegram_webhook` handler that branches on the literal "/start".

Python dynamic behaviour is embedded explicitly: JSON values are a small
inductive type, dictionary subscripting that can raise `KeyError` or
`TypeError` returns `Except`, and the handler threads the list of
outbound `send_message` calls it makes alongside its response, which is
either a JSON acknowledgment body or an uncaught Python exception.
-/

namespace TelegramBot

/-- A JSON value, as parsed from the inbound webhook request body.
Numbers are modelled as integers (Telegram chat identifiers and every
field the handler touches are integers or strings). -/
inductive Json where
  | null : Json
  | bool : Bool → Json
  | num : Int → Json
  | str : String → Json
  | arr : List Json → Json
  | obj : List (String × Json) → Json

/-- First value bound to key `k` in an association list of JSON object
fields (Python dict lookup order: first match wins). -/
def getKey? (fs : List (String × Json)) (k : String) : Option Json :=
  (fs.find? (fun p => p.1 == k)).map (fun p => p.2)

/-- Python exceptions that the code under verification can raise or
catch. -/
inductive PyError where
  | jsonDecodeError : PyError
  | keyError : String → PyError
  | typeError : PyError
  | attributeError : PyError
  | requestError : String → PyError
  | httpStatusError : Nat → String → PyError

/-- Python `needle in container` for a string needle: key membership for
dicts, element membership for lists, substring test for strings, and a
`TypeError` otherwise (from `if "message" in update`, main.py line 81). -/
def pyIn (needle : String) (container : Json) : Except PyError Bool :=
  match container with
  | .obj fs => .ok (getKey? fs needle).isSome
  | .arr xs => .ok (xs.any (fun x => match x with | .str s => s == needle | _ => false))
  | .str s => .ok (decide (1 < (s.splitOn needle).length))
  | _ => .error .typeError

/-- Python `container[key]` for a string key: dict lookup raising
`KeyError` when the key is absent, `TypeError` when the container is not
a dict (from `update["message"]` and `message["chat"]["id"]`,
main.py lines 82 and 83). -/
def pyGetItem (container : Json) (key : String) : Except PyError Json :=
  match container with
  | .obj fs =>
    match getKey? fs key with
    | some v => .ok v
    | none => .error (.keyError key)
  | _ => .error .typeError

/-- Python `container.get(key, dflt)`: total dict lookup with a default,
`AttributeError` when the receiver is not a dict (from
`message.get("text", "")`, main.py line 84). -/
def pyDictGet (container : Json) (key : String) (dflt : Json) : Except PyError Json :=
  match container with
  | .obj fs => .ok ((getKey? fs key).getD dflt)
  | _ => .error .attributeError

/-- The single quote character, written via its code point. -/
def sq : String := String.singleton (Char.ofNat 39)

mutual

/-- Python `repr` of a JSON value, as used for values nested in
containers (string escaping inside `repr` is simplified: the handler
only ever formats top-level values, where `str` does not quote). -/
def pyRepr : Json → String
  | .null => "None"
  | .bool true => "True"
  | .bool false => "False"
  | .num n => toString n
  | .str s => sq ++ s ++ sq
  | .arr xs => "[" ++ pyReprList xs ++ "]"
  | .obj fs => "\x7b" ++ pyReprFields fs ++ "\x7d"

/-- Comma-separated `repr` of list elements. -/
def pyReprList : List Json → String
  | [] => ""
  | [x] => pyRepr x
  | x :: y :: xs => pyRepr x ++ ", " ++ pyReprList (y :: xs)

/-- Comma-separated `repr` of dict entries. -/
def pyReprFields : List (String × Json) → String
  | [] => ""
  | [(k, v)] => sq ++ k ++ sq ++ ": " ++ pyRepr v
  | (k, v) :: f :: fs => sq ++ k ++ sq ++ ": " ++ pyRepr v ++ ", " ++ pyReprFields (f :: fs)

end

/-- Python `str()` of a JSON value, as performed by the f-string
interpolation in main.py line 93: a string formats as itself, every
other value as its `repr`. -/
def pyStr : Json → String
  | .str s => s
  | .null => pyRepr .null
  | .bool b => pyRepr (.bool b)
  | .num n => pyRepr (.num n)
  | .arr xs => pyRepr (.arr xs)
  | .obj fs => pyRepr (.obj fs)

-- --- Configuration and Initialization (main.py lines 10 to 24) ---

/-- The error message of the `ValueError` raised when the token is
missing (main.py line 18). -/
def startupErrorMessage : String :=
  "BOT_TOKEN environment variable not set. Please get your token from BotFather and add it to a .env file."

/-- The application state reached when module initialization completes:
the Telegram API base URL is built and the FastAPI app exists, ready for
the server to listen. -/
structure AppConfig where
  api_url : String

/-- Python truthiness test `not BOT_TOKEN` for an `os.getenv` result:
true exactly when the variable is unset (`None`) or set to the empty
string. -/
def pyFalsyStr : Option String → Bool
  | none => true
  | some s => s == ""

/-- Module initialization (main.py lines 14 to 24): read `BOT_TOKEN`
from the environment, raise `ValueError` if it is falsy — before
`API_URL` is built and before the FastAPI app is created — otherwise
build `API_URL` and create the app. -/
def startup (bot_token : Option String) : Except String AppConfig :=
  if pyFalsyStr bot_token then
    .error startupErrorMessage
  else
    .ok ⟨"https://api.telegram.org/bot" ++ bot_token.getD ""⟩

-- --- Telegram API Interaction (main.py lines 28 to 55) ---

/-- Outcome of the outbound HTTP POST performed by `send_message`:
either a response with a status code and body, or a transport-level
failure (httpx `RequestError`). -/
inductive HttpResult where
  | response : Nat → String → HttpResult
  | transportError : String → HttpResult

/-- httpx `response.raise_for_status()` (main.py line 47): raises
`HTTPStatusError` unless the status code is 2xx. -/
def raise_for_status (code : Nat) (body : String) : Except PyError Unit :=
  if 200 ≤ code ∧ code < 300 then .ok () else .error (.httpStatusError code body)

/-- The `try` body of `send_message` (main.py lines 40 to 49): POST the
payload, then check the status. A transport failure surfaces as httpx
`RequestError`. -/
def send_message_attempt (http : HttpResult) : Except PyError Unit :=
  match http with
  | .transportError m => .error (.requestError m)
  | .response code body => raise_for_status code body

/-- `send_message` (main.py lines 28 to 55): the `except` clauses catch
both `httpx.RequestError` and `httpx.HTTPStatusError`, log them, and
return normally; no other exception kind can escape the `try` body. -/
def send_message (http : HttpResult) : Except PyError Unit :=
  match send_message_attempt http with
  | .ok _ => .ok ()
  | .error (.requestError _) => .ok ()
  | .error (.httpStatusError _ _) => .ok ()
  | .error e => .error e

-- --- FastAPI Webhook Endpoint (main.py lines 67 to 97) ---

/-- Reply sent for `/start` (main.py line 89). -/
def welcomeText : String :=
  "Hello! I am your simple Telegram bot. How can I help you?"

/-- Reply sent for any other message, interpolating the received text
(main.py line 93). -/
def fallbackText (text : Json) : String :=
  "You sent: " ++ sq ++ pyStr text ++ sq ++ ". Try sending /start to get a welcome message!"

/-- The acknowledgment body returned on every successful run of the
handler (main.py line 97). -/
def ackBody : Json := .obj [("status", .str "ok")]

/-- Python `text == "/start"` (main.py line 87): true exactly when the
value is the string "/start"; any non-string value compares unequal. -/
def isStartCmd : Json → Bool
  | .str s => s == "/start"
  | _ => false

/-- One recorded call to the outbound sender. -/
structure SendCall where
  chat_id : Json
  text : String

/-- What one invocation of the webhook handler did: the outbound
`send_message` calls it issued, in order, and its response — the JSON
acknowledgment body, or the uncaught Python exception that escaped. -/
structure WebhookOutcome where
  sends : List SendCall
  result : Except PyError Json

/-- `telegram_webhook` (main.py lines 67 to 97). `body` is the result of
`await request.json()`: `.error` when the request body is not valid
JSON, in which case the parse exception propagates uncaught. `http` is
the outcome of the outbound HTTP POST, should one be made. -/
def telegram_webhook (body : Except Unit Json) (http : HttpResult) : WebhookOutcome :=
  match body with
  | .error _ => ⟨[], .error .jsonDecodeError⟩
  | .ok update =>
    match pyIn "message" update with
    | .error e => ⟨[], .error e⟩
    | .ok false => ⟨[], .ok ackBody⟩
    | .ok true =>
      match pyGetItem update "message" with
      | .error e => ⟨[], .error e⟩
      | .ok message =>
        match pyGetItem message "chat" with
        | .error e => ⟨[], .error e⟩
        | .ok chat =>
          match pyGetItem chat "id" with
          | .error e => ⟨[], .error e⟩
          | .ok chat_id =>
            match pyDictGet message "text" (.str "") with
            | .error e => ⟨[], .error e⟩
            | .ok text =>
              if isStartCmd text then
                match send_message http with
                | .error e => ⟨[⟨chat_id, welcomeText⟩], .error e⟩
                | .ok _ => ⟨[⟨chat_id, welcomeText⟩], .ok ackBody⟩
              else
                match send_message http with
                | .error e => ⟨[⟨chat_id, fallbackText text⟩], .error e⟩
                | .ok _ => ⟨[⟨chat_id, fallbackText text⟩], .ok ackBody⟩

-- --- Helper lemmas ---

/-- `send_message` returns normally whatever the outbound HTTP outcome:
both exception kinds its body can raise are caught. -/
theorem send_message_ok (http : HttpResult) : send_message http = .ok () := by
  cases http with
  | transportError m => rfl
  | response code body =>
    by_cases h : 200 ≤ code ∧ code < 300 <;>
      simp [send_message, send_message_attempt, raise_for_status, h]

/-- Evaluation of the handler on a well-formed update: an object with a
"message" object whose "chat" object has an "id". -/
theorem webhook_message_eval (ufs mfs cfs : List (String × Json)) (cid : Json)
    (http : HttpResult)
    (hm : getKey? ufs "message" = some (.obj mfs))
    (hc : getKey? mfs "chat" = some (.obj cfs))
    (hid : getKey? cfs "id" = some cid) :
    telegram_webhook (.ok (.obj ufs)) http =
      if isStartCmd ((getKey? mfs "text").getD (.str "")) then
        ⟨[⟨cid, welcomeText⟩], .ok ackBody⟩
      else
        ⟨[⟨cid, fallbackText ((getKey? mfs "text").getD (.str ""))⟩], .ok ackBody⟩ := by
  simp only [telegram_webhook, pyIn, pyGetItem, pyDictGet, hm, hc, hid,
    Option.isSome_some, send_message_ok]

-- --- C1 ---

/-- C1: for every parsed update with a "message" object whose "text" is
exactly "/start", the handler invokes the outbound sender exactly once,
with the chat identifier from the message's chat object and the welcome
reply text, and returns the success acknowledgment. -/
theorem c1_start_sends_welcome_once (ufs mfs cfs : List (String × Json))
    (cid : Json) (http : HttpResult)
    (hm : getKey? ufs "message" = some (.obj mfs))
    (hc : getKey? mfs "chat" = some (.obj cfs))
    (hid : getKey? cfs "id" = some cid)
    (ht : getKey? mfs "text" = some (.str "/start")) :
    telegram_webhook (.ok (.obj ufs)) http =
      ⟨[⟨cid, welcomeText⟩], .ok ackBody⟩ := by
  rw [webhook_message_eval ufs mfs cfs cid http hm hc hid]
  simp [ht, isStartCmd]

/-- The "/start" message fields of the spec scenario with chat id 42. -/
def startMsg : List (String × Json) :=
  [("chat", Json.obj [("id", Json.num 42)]), ("text", Json.str "/start")]

/-- The "/start" update of the spec scenario. -/
def startUpdate : List (String × Json) := [("message", Json.obj startMsg)]

/-- Witness for C1 at the spec scenario: chat id 42, text "/start". -/
theorem c1_start_sends_welcome_once_witness :
    getKey? startUpdate "message" = some (.obj startMsg) ∧
    getKey? startMsg "chat" = some (.obj [("id", Json.num 42)]) ∧
    getKey? [("id", Json.num 42)] "id" = some (.num 42) ∧
    getKey? startMsg "text" = some (.str "/start") ∧
    telegram_webhook (.ok (.obj startUpdate)) (.response 200 "") =
      ⟨[⟨.num 42, welcomeText⟩], .ok ackBody⟩ :=
  ⟨rfl, rfl, rfl, rfl,
    c1_start_sends_welcome_once startUpdate startMsg [("id", Json.num 42)]
      (.num 42) (.response 200 "") rfl rfl rfl rfl⟩

-- --- C2 ---

/-- C2 counterexample: two messages to the same chat whose texts
("hello" and "bye") are both different from "/start" receive different
reply strings, so there is no single, fixed fallback reply text. -/
theorem c2_fixed_fallback_counterexample :
    "hello" ≠ "/start" ∧ "bye" ≠ "/start" ∧
    (telegram_webhook
        (.ok (.obj [("message", .obj [("chat", .obj [("id", .num 7)]), ("text", .str "hello")])]))
        (.response 200 "")).sends.map (fun c => c.text) ≠
      (telegram_webhook
        (.ok (.obj [("message", .obj [("chat", .obj [("id", .num 7)]), ("text", .str "bye")])]))
        (.response 200 "")).sends.map (fun c => c.text) := by
  refine ⟨by decide, by decide, ?_⟩
  decide

/-- C2 amended: for every parsed update with a "message" object whose
text is a string other than exactly "/start" — including "", "/Start",
"/start extra", " /start" — the handler invokes the outbound sender
exactly once with the fallback reply for that text (the fallback
interpolates the received text, so it is not one fixed string); the
branch is selected by exact string equality, with no trimming or case
folding. -/
theorem c2_non_start_sends_fallback_once (ufs mfs cfs : List (String × Json))
    (cid : Json) (t : String) (http : HttpResult)
    (hm : getKey? ufs "message" = some (.obj mfs))
    (hc : getKey? mfs "chat" = some (.obj cfs))
    (hid : getKey? cfs "id" = some cid)
    (ht : getKey? mfs "text" = some (.str t))
    (hne : t ≠ "/start") :
    telegram_webhook (.ok (.obj ufs)) http =
      ⟨[⟨cid, fallbackText (.str t)⟩], .ok ackBody⟩ := by
  rw [webhook_message_eval ufs mfs cfs cid http hm hc hid]
  simp [ht, isStartCmd, hne]

/-- Witness for C2 (amended) at text "/Start" (case difference), chat
id 7: the fallback branch fires. -/
theorem c2_non_start_sends_fallback_once_witness :
    getKey? [("message", Json.obj [("chat", Json.obj [("id", Json.num 7)]), ("text", Json.str "/Start")])]
        "message" = some (.obj [("chat", .obj [("id", .num 7)]), ("text", .str "/Start")]) ∧
    getKey? [("chat", Json.obj [("id", Json.num 7)]), ("text", Json.str "/Start")] "chat" =
      some (.obj [("id", .num 7)]) ∧
    getKey? [("id", Json.num 7)] "id" = some (.num 7) ∧
    getKey? [("chat", Json.obj [("id", Json.num 7)]), ("text", Json.str "/Start")] "text" =
      some (.str "/Start") ∧
    "/Start" ≠ "/start" ∧
    telegram_webhook
        (.ok (.obj [("message", .obj [("chat", .obj [("id", .num 7)]), ("text", .str "/Start")])]))
        (.response 200 "") =
      ⟨[⟨.num 7, fallbackText (.str "/Start")⟩], .ok ackBody⟩ :=
  ⟨rfl, rfl, rfl, rfl, by decide,
    c2_non_start_sends_fallback_once _ _ _ _ _ _ rfl rfl rfl rfl (by decide)⟩

-- --- C3 ---

/-- C3 counterexample: on a request body that is not valid JSON, the
handler does not return the success acknowledgment — the parse exception
escapes uncaught (there is no try/except around
`await request.json()`). -/
theorem c3_invalid_json_counterexample :
    (telegram_webhook (.error ()) (.response 200 "")).result = .error .jsonDecodeError ∧
    (telegram_webhook (.error ()) (.response 200 "")).result ≠ .ok ackBody :=
  ⟨rfl, fun h => Except.noConfusion h⟩

/-- C3 amended: for every inbound request body that is not valid JSON,
the handler raises — the JSON parse exception propagates uncaught, no
outbound call is made, and the success acknowledgment is not returned
(the framework turns the exception into an error response). -/
theorem c3_invalid_json_raises (http : HttpResult) :
    telegram_webhook (.error ()) http = ⟨[], .error .jsonDecodeError⟩ := rfl

-- --- C4 ---

/-- C4 counterexample: an update whose message has no "chat" key is not
a silent no-op — the handler raises `KeyError` and does not return the
success acknowledgment. -/
theorem c4_missing_chat_counterexample :
    (telegram_webhook (.ok (.obj [("message", .obj [("text", .str "hi")])]))
        (.response 200 "")).sends = [] ∧
    (telegram_webhook (.ok (.obj [("message", .obj [("text", .str "hi")])]))
        (.response 200 "")).result = .error (.keyError "chat") ∧
    (telegram_webhook (.ok (.obj [("message", .obj [("text", .str "hi")])]))
        (.response 200 "")).result ≠ .ok ackBody :=
  ⟨rfl, rfl, fun h => Except.noConfusion h⟩

/-- C4 amended: for every parsed update whose "message" object lacks a
chat identifier, the handler raises an uncaught `KeyError` ("chat" when
the chat key is missing, "id" when the chat object has no id), makes no
outbound call, and does not return the success acknowledgment. -/
theorem c4_missing_chat_id_raises (ufs mfs : List (String × Json)) (http : HttpResult)
    (hm : getKey? ufs "message" = some (.obj mfs)) :
    (getKey? mfs "chat" = none →
      telegram_webhook (.ok (.obj ufs)) http = ⟨[], .error (.keyError "chat")⟩) ∧
    (∀ cfs, getKey? mfs "chat" = some (.obj cfs) → getKey? cfs "id" = none →
      telegram_webhook (.ok (.obj ufs)) http = ⟨[], .error (.keyError "id")⟩) := by
  constructor
  · intro hc
    simp only [telegram_webhook, pyIn, pyGetItem, hm, hc, Option.isSome_some]
  · intro cfs hc hid
    simp only [telegram_webhook, pyIn, pyGetItem, hm, hc, hid, Option.isSome_some]

/-- Witness for C4 (amended): both missing-"chat" and missing-"id"
instances, evaluated concretely. -/
theorem c4_missing_chat_id_raises_witness :
    (getKey? [("message", Json.obj [("text", Json.str "hi")])] "message" =
        some (.obj [("text", .str "hi")]) ∧
      getKey? [("text", Json.str "hi")] "chat" = none ∧
      telegram_webhook (.ok (.obj [("message", .obj [("text", .str "hi")])]))
          (.response 200 "") = ⟨[], .error (.keyError "chat")⟩) ∧
    (getKey? [("message", Json.obj [("chat", Json.obj [])])] "message" =
        some (.obj [("chat", .obj [])]) ∧
      getKey? [("chat", Json.obj [])] "chat" = some (.obj []) ∧
      getKey? ([] : List (String × Json)) "id" = none ∧
      telegram_webhook (.ok (.obj [("message", .obj [("chat", .obj [])])]))
          (.response 200 "") = ⟨[], .error (.keyError "id")⟩) :=
  ⟨⟨rfl, rfl,
      (c4_missing_chat_id_raises [("message", Json.obj [("text", Json.str "hi")])]
        [("text", Json.str "hi")] (.response 200 "") rfl).1 rfl⟩,
    ⟨rfl, rfl, rfl,
      (c4_missing_chat_id_raises [("message", Json.obj [("chat", Json.obj [])])]
        [("chat", Json.obj [])] (.response 200 "") rfl).2 [] rfl rfl⟩⟩

-- --- C5 ---

/-- C5: for every parsed update object with no "message" key (for
example an "edited_message" update), the handler makes no outbound call
and returns the success acknowledgment. -/
theorem c5_no_message_is_noop (ufs : List (String × Json)) (http : HttpResult)
    (h : getKey? ufs "message" = none) :
    telegram_webhook (.ok (.obj ufs)) http = ⟨[], .ok ackBody⟩ := by
  simp only [telegram_webhook, pyIn, h, Option.isSome_none]

/-- Witness for C5 at the spec scenario: an "edited_message" update. -/
theorem c5_no_message_is_noop_witness :
    getKey? [("edited_message", Json.obj [("chat", Json.obj [("id", Json.num 3)])])]
        "message" = none ∧
    telegram_webhook
        (.ok (.obj [("edited_message", .obj [("chat", .obj [("id", .num 3)])])]))
        (.transportError "unreachable") = ⟨[], .ok ackBody⟩ :=
  ⟨rfl, c5_no_message_is_noop _ _ rfl⟩

-- --- C6 ---

/-- The handler's outcome does not depend on the outbound HTTP result:
`send_message` swallows every failure. -/
theorem telegram_webhook_http_eq (body : Except Unit Json) (h1 h2 : HttpResult) :
    telegram_webhook body h1 = telegram_webhook body h2 := by
  simp only [telegram_webhook, send_message_ok]

/-- Every run of the handler either answers the success acknowledgment,
or made no outbound call and raised. -/
theorem webhook_outcome_shape (body : Except Unit Json) (http : HttpResult) :
    ((telegram_webhook body http).sends = [] ∧
      (telegram_webhook body http).result ≠ .ok ackBody) ∨
    (telegram_webhook body http).result = .ok ackBody := by
  simp only [telegram_webhook, send_message_ok]
  repeat' split
  all_goals
    first
      | exact .inr rfl
      | exact .inl ⟨rfl, fun h => Except.noConfusion h⟩

/-- C6: outbound send failures never propagate — `send_message` returns
normally on success, transport error, and non-2xx status alike; the
handler's outcome is independent of the send result; and whenever a send
was made, the handler still returns the success acknowledgment. -/
theorem c6_send_failure_never_propagates :
    (∀ http, send_message http = .ok ()) ∧
    (∀ body h1 h2, telegram_webhook body h1 = telegram_webhook body h2) ∧
    (∀ body http, (telegram_webhook body http).sends ≠ [] →
      (telegram_webhook body http).result = .ok ackBody) := by
  refine ⟨send_message_ok, telegram_webhook_http_eq, fun body http h => ?_⟩
  rcases webhook_outcome_shape body http with ⟨hs, _⟩ | hr
  · exact absurd hs h
  · exact hr

/-- Witness for C6: the "/start" update with a 500 from Telegram — a
send was made and the acknowledgment is unchanged. -/
theorem c6_send_failure_never_propagates_witness :
    (telegram_webhook (.ok (.obj startUpdate)) (.response 500 "err")).sends ≠ [] ∧
    (telegram_webhook (.ok (.obj startUpdate)) (.response 500 "err")).result = .ok ackBody :=
  ⟨fun h => List.noConfusion h,
    c6_send_failure_never_propagates.2.2 (.ok (.obj startUpdate)) (.response 500 "err")
      (fun h => List.noConfusion h)⟩

-- --- C7 ---

/-- C7: with no bot token configured, module initialization raises the
descriptive `ValueError` before the app is created, so the server never
begins listening; with a (non-empty) token configured, startup completes
with the API base URL built from the token. -/
theorem c7_missing_token_fatal :
    startup none = .error startupErrorMessage ∧
    (∀ s : String, s ≠ "" →
      startup (some s) = .ok ⟨"https://api.telegram.org/bot" ++ s⟩) := by
  refine ⟨rfl, fun s hs => ?_⟩
  simp [startup, pyFalsyStr, hs]

/-- Witness for C7 at a concrete token. -/
theorem c7_missing_token_fatal_witness :
    "123:ABC" ≠ "" ∧
    startup (some "123:ABC") = .ok ⟨"https://api.telegram.org/bot" ++ "123:ABC"⟩ :=
  ⟨by decide, c7_missing_token_fatal.2 "123:ABC" (by decide)⟩

-- --- C8 ---

/-- C8: for every parsed update whose "message" object has a chat
identifier but no "text" field, the text defaults to the empty string,
which falls into the fallback branch, and the success acknowledgment is
returned. -/
theorem c8_missing_text_defaults_empty (ufs mfs cfs : List (String × Json))
    (cid : Json) (http : HttpResult)
    (hm : getKey? ufs "message" = some (.obj mfs))
    (hc : getKey? mfs "chat" = some (.obj cfs))
    (hid : getKey? cfs "id" = some cid)
    (ht : getKey? mfs "text" = none) :
    telegram_webhook (.ok (.obj ufs)) http =
      ⟨[⟨cid, fallbackText (.str "")⟩], .ok ackBody⟩ := by
  rw [webhook_message_eval ufs mfs cfs cid http hm hc hid]
  simp [ht, isStartCmd]

/-- Witness for C8: a sticker-like message with chat id 9 and no text. -/
theorem c8_missing_text_defaults_empty_witness :
    getKey? [("message", Json.obj [("chat", Json.obj [("id", Json.num 9)])])] "message" =
      some (.obj [("chat", .obj [("id", .num 9)])]) ∧
    getKey? [("chat", Json.obj [("id", Json.num 9)])] "chat" = some (.obj [("id", .num 9)]) ∧
    getKey? [("id", Json.num 9)] "id" = some (.num 9) ∧
    getKey? [("chat", Json.obj [("id", Json.num 9)])] "text" = none ∧
    telegram_webhook (.ok (.obj [("message", .obj [("chat", .obj [("id", .num 9)])])]))
        (.response 200 "") = ⟨[⟨.num 9, fallbackText (.str "")⟩], .ok ackBody⟩ :=
  ⟨rfl, rfl, rfl, rfl,
    c8_missing_text_defaults_empty [("message", Json.obj [("chat", Json.obj [("id", Json.num 9)])])]
      [("chat", Json.obj [("id", Json.num 9)])] [("id", Json.num 9)] (.num 9)
      (.response 200 "") rfl rfl rfl rfl⟩

-- --- C9 ---

/-- C9: the handler is deterministic in the parsed update — two
invocations on equal parsed bodies select the same branch, record the
same outbound calls, and return the same response, whatever the outbound
HTTP environment does in each run. -/
theorem c9_handler_deterministic (b1 b2 : Except Unit Json) (h1 h2 : HttpResult)
    (heq : b1 = b2) :
    telegram_webhook b1 h1 = telegram_webhook b2 h2 := by
  subst heq
  exact telegram_webhook_http_eq b1 h1 h2

/-- Witness for C9: equal bodies, one run with a 200 and one with a
transport error, same outcome. -/
theorem c9_handler_deterministic_witness :
    (Except.ok (Json.obj startUpdate) : Except Unit Json) = .ok (.obj startUpdate) ∧
    telegram_webhook (.ok (.obj startUpdate)) (.response 200 "") =
      telegram_webhook (.ok (.obj startUpdate)) (.transportError "boom") :=
  ⟨rfl, c9_handler_deterministic (.ok (.obj startUpdate)) (.ok (.obj startUpdate))
    (.response 200 "") (.transportError "boom") rfl⟩

-- --- C10 ---

/-- C10: the concrete reply strings — "/start" earns exactly
"Hello! I am your simple Telegram bot. How can I help you?", and any
other string text earns "You sent: '<text>'. Try sending /start to get a
welcome message!" with the user-supplied text interpolated (so the
fallback is not one fixed string). -/
theorem c10_reply_string_literals (ufs mfs cfs : List (String × Json))
    (cid : Json) (t : String) (http : HttpResult)
    (hm : getKey? ufs "message" = some (.obj mfs))
    (hc : getKey? mfs "chat" = some (.obj cfs))
    (hid : getKey? cfs "id" = some cid)
    (ht : getKey? mfs "text" = some (.str t)) :
    (t = "/start" → telegram_webhook (.ok (.obj ufs)) http =
      ⟨[⟨cid, "Hello! I am your simple Telegram bot. How can I help you?"⟩], .ok ackBody⟩) ∧
    (t ≠ "/start" → telegram_webhook (.ok (.obj ufs)) http =
      ⟨[⟨cid, "You sent: " ++ sq ++ t ++ sq ++
        ". Try sending /start to get a welcome message!"⟩], .ok ackBody⟩) := by
  constructor
  · intro hstart
    subst hstart
    rw [webhook_message_eval ufs mfs cfs cid http hm hc hid]
    simp [ht, isStartCmd, welcomeText]
  · intro hne
    rw [webhook_message_eval ufs mfs cfs cid http hm hc hid]
    simp [ht, isStartCmd, hne, fallbackText, pyStr]

/-- Witness for C10 at text "hi", chat id 5: the interpolated fallback
string, spelled out. -/
theorem c10_reply_string_literals_witness :
    getKey? [("message", Json.obj [("chat", Json.obj [("id", Json.num 5)]), ("text", Json.str "hi")])]
        "message" = some (.obj [("chat", .obj [("id", .num 5)]), ("text", .str "hi")]) ∧
    getKey? [("chat", Json.obj [("id", Json.num 5)]), ("text", Json.str "hi")] "chat" =
      some (.obj [("id", .num 5)]) ∧
    getKey? [("id", Json.num 5)] "id" = some (.num 5) ∧
    getKey? [("chat", Json.obj [("id", Json.num 5)]), ("text", Json.str "hi")] "text" =
      some (.str "hi") ∧
    "hi" ≠ "/start" ∧
    telegram_webhook
        (.ok (.obj [("message", .obj [("chat", .obj [("id", .num 5)]), ("text", .str "hi")])]))
        (.response 200 "") =
      ⟨[⟨.num 5, "You sent: " ++ sq ++ "hi" ++ sq ++
        ". Try sending /start to get a welcome message!"⟩], .ok ackBody⟩ :=
  ⟨rfl, rfl, rfl, rfl, by decide,
    (c10_reply_string_literals
      [("message", Json.obj [("chat", Json.obj [("id", Json.num 5)]), ("text", Json.str "hi")])]
      [("chat", Json.obj [("id", Json.num 5)]), ("text", Json.str "hi")]
      [("id", Json.num 5)] (.num 5) "hi" (.response 200 "")
      rfl rfl rfl rfl).2 (by decide)⟩

end TelegramBot
